import Mathlib

/-!
Shallow embedding of the Application Status-Transition core of the
234Hire backend (Express + Mongoose, TypeScript).

Embedded source files:
* src/controllers/application.ts — applyForJob, updateApplicationStatus
* src/services/transaction.ts — TransactionService.createJobPayment
* src/services/notification.service.ts (staged inside
  src/src/services/email.ts, lines 221–462) — NotificationService
* src/models/application.ts — Application schema (fields, enum, post-save hook)
* src/models/transaction.model.ts — Transaction schema (min-validators on save)
* src/vallidations/application.validation.ts — status enum validator
* src/controllers/userOverview.ts — handleEmployerData hiring metrics

Modelling conventions: JavaScript numbers are exact rationals (ℚ);
Mongo document ids are Nat; persisted collections are Lean lists held in
a DB record; a controller run is a pure function DB → Except error
(DB × response).  Mongoose schema validation that runs on save (for
example `min: [0, "Amount must be positive"]` on Transaction.amount) is
part of the save step of the embedded operation.
-/

/-- Application.status enum from src/models/application.ts
(`enum: ["pending", "reviewed", "accepted", "rejected"]`).
There is no "withdrawn" member in the source. -/
inductive AppStatus where
  | pending
  | reviewed
  | accepted
  | rejected
deriving DecidableEq

def AppStatus.isAccepted : AppStatus → Bool
  | .accepted => true
  | _ => false

def AppStatus.isRejected : AppStatus → Bool
  | .rejected => true
  | _ => false

/-- Field names of ApplicationSchema in src/models/application.ts
(plus createdAt/updatedAt added by `timestamps: true`).  The schema has
no analytics fields: in particular no timeToReview and no timeToDecision. -/
def applicationSchemaFields : List String :=
  ["job", "applicant", "status", "coverLetter", "resumeUrl",
   "createdAt", "updatedAt"]

/-- An Application document (src/models/application.ts). -/
structure Application where
  id : Nat
  job : Nat
  applicant : Nat
  status : AppStatus
  coverLetter : Option String
  resumeUrl : Option String
deriving DecidableEq

/-- The slice of a Job document read or written by the embedded
operations (src/models/job.model.ts): owner, salary bounds, lifecycle
status string, deadline and the denormalized application counter. -/
structure Job where
  id : Nat
  postedBy : Nat
  title : String
  salaryMin : Option ℚ
  salaryMax : Option ℚ
  status : String
  applicationDeadline : Option Nat
  applicationsCount : Int
deriving DecidableEq

/-- The slice of a User document read or written by the embedded
operations: role, the names the controllers interpolate into
notification messages, and employerProfile.hiresCount. -/
structure User where
  id : Nat
  role : String
  fullName : Option String
  username : String
  hiresCount : Int
deriving DecidableEq

/-- A Transaction document (src/models/transaction.model.ts).
`ttype` stands for the schema's `type` field (a Lean keyword). -/
structure Transaction where
  ttype : String
  amount : ℚ
  platformFee : ℚ
  netAmount : ℚ
  payer : Nat
  payee : Nat
  job : Nat
  paymentMethod : String
  description : String
  status : String
deriving DecidableEq

/-- A Notification document (src/models/notification.model.ts).
`ntype` stands for the schema's `type` field; `isRead` defaults to
false on save.  The schema enum for `ntype` is job_posted,
application_accepted, application_rejected, job_completed. -/
structure Notification where
  recipient : Nat
  sender : Option Nat
  ntype : String
  title : String
  message : String
  isRead : Bool
  relatedJob : Option Nat
  relatedApplication : Option Nat
  actionUrl : String
deriving DecidableEq

/-- The persistent state: the five Mongo collections the embedded
operations touch. -/
structure DB where
  applications : List Application
  jobs : List Job
  users : List User
  transactions : List Transaction
  notifications : List Notification
deriving DecidableEq

def findUser (db : DB) (id : Nat) : Option User :=
  db.users.find? (fun u => u.id == id)

def findJob (db : DB) (id : Nat) : Option Job :=
  db.jobs.find? (fun j => j.id == id)

def findApplication (db : DB) (id : Nat) : Option Application :=
  db.applications.find? (fun a => a.id == id)

/-- JavaScript `a || b` on an optional number: `undefined` and `0` are
falsy and fall through to `b`. -/
def jsOr (a : Option ℚ) (b : ℚ) : ℚ :=
  match a with
  | some x => if x = 0 then b else x
  | none => b

/-- TransactionService.createJobPayment (src/services/transaction.ts,
lines 10–36).  `platformFeePercentage || 10` is JS: an absent or zero
percentage falls back to 10.  The save step runs the mongoose
min-validators of TransactionSchema (src/models/transaction.model.ts):
amount, platformFee and netAmount must each be ≥ 0, otherwise the save
rejects with the schema message and no document is created.  The service
itself performs no amount check. -/
def createJobPayment (jobId employerId specialistId : Nat) (amount : ℚ)
    (paymentMethod : String) (platformFeePercentage : Option ℚ) :
    Except String Transaction :=
  let pct : ℚ :=
    match platformFeePercentage with
    | some p => if p = 0 then 10 else p
    | none => 10
  let platformFee := amount * pct / 100
  let netAmount := amount - platformFee
  if amount < 0 then
    Except.error "Amount must be positive"
  else if platformFee < 0 then
    Except.error "platformFee min"
  else if netAmount < 0 then
    Except.error "netAmount min"
  else
    Except.ok
      { ttype := "job_payment"
        amount := amount
        platformFee := platformFee
        netAmount := netAmount
        payer := employerId
        payee := specialistId
        job := jobId
        paymentMethod := paymentMethod
        description := "Payment for job completion"
        status := "completed" }

/-- JavaScript `a || b` on an optional string: `undefined` and the
empty string are falsy and fall through to `b`. -/
def jsOrStr (a : Option String) (b : String) : String :=
  match a with
  | some s => if s = "" then b else s
  | none => b

/-- NotificationService.notifyApplicationAccepted
(src/services/notification.service.ts, staged inside
src/src/services/email.ts, lines 257–276): one Notification with type
"application_accepted". -/
def notifyApplicationAcceptedDoc (recipientId senderId jobId applicationId : Nat)
    (jobTitle : String) : Notification :=
  { recipient := recipientId
    sender := some senderId
    ntype := "application_accepted"
    title := "Application Accepted! 🎉"
    message := "Congratulations! Your application for \"" ++ jobTitle ++
      "\" has been accepted."
    isRead := false
    relatedJob := some jobId
    relatedApplication := some applicationId
    actionUrl := "/applications/" ++ toString applicationId }

/-- NotificationService.notifyApplicationReviewed (email.ts, lines
412–432): the saved type is "application_accepted" — the service
reuses the existing enum value rather than introducing
"application_reviewed" (its own comment says so); only the title and
message distinguish it from an acceptance notification. -/
def notifyApplicationReviewedDoc (recipientId senderId jobId applicationId : Nat)
    (jobTitle employerName : String) : Notification :=
  { recipient := recipientId
    sender := some senderId
    ntype := "application_accepted"
    title := "Application Under Review"
    message := employerName ++ " is reviewing your application for \"" ++
      jobTitle ++ "\"."
    isRead := false
    relatedJob := some jobId
    relatedApplication := some applicationId
    actionUrl := "/applications/" ++ toString applicationId }

/-- NotificationService.notifyApplicationRejected (email.ts, lines
281–300): one Notification with type "application_rejected". -/
def notifyApplicationRejectedDoc (recipientId senderId jobId applicationId : Nat)
    (jobTitle : String) : Notification :=
  { recipient := recipientId
    sender := some senderId
    ntype := "application_rejected"
    title := "Application Update"
    message := "Thank you for your interest in \"" ++ jobTitle ++
      "\". We've decided to move forward with other candidates."
    isRead := false
    relatedJob := some jobId
    relatedApplication := some applicationId
    actionUrl := "/jobs" }

/-- NotificationService.notifyApplicationStatusChanged (email.ts,
lines 437–460): saved with type "job_posted" (again reusing an
existing enum value); the message is `customMessage || default`. -/
def notifyApplicationStatusChangedDoc
    (recipientId senderId jobId applicationId : Nat)
    (jobTitle newStatus : String) (customMessage : Option String) : Notification :=
  { recipient := recipientId
    sender := some senderId
    ntype := "job_posted"
    title := "Application Status Update"
    message := jsOrStr customMessage
      ("Your application status for \"" ++ jobTitle ++
        "\" has been updated to " ++ newStatus ++ ".")
    isRead := false
    relatedJob := some jobId
    relatedApplication := some applicationId
    actionUrl := "/applications/" ++ toString applicationId }

/-- NotificationService.notifyNewApplication (email.ts, lines
387–407): notifies the employer about a new application, saved with
type "job_posted" (the service's comment: use existing enum value
temporarily). -/
def notifyNewApplicationDoc (employerId applicantId jobId applicationId : Nat)
    (jobTitle applicantName : String) : Notification :=
  { recipient := employerId
    sender := some applicantId
    ntype := "job_posted"
    title := "New Application Received"
    message := applicantName ++ " has applied for your job \"" ++ jobTitle ++ "\"."
    isRead := false
    relatedJob := some jobId
    relatedApplication := some applicationId
    actionUrl := "/applications/" ++ toString applicationId }

def addNotification (db : DB) (n : Notification) : DB :=
  { db with notifications := db.notifications ++ [n] }

/-- `User.findByIdAndUpdate(userId, \x7b $inc: \x7b "employerProfile.hiresCount": 1 \x7d \x7d)`
from the accepted branch of updateApplicationStatus. -/
def incHiresCount (db : DB) (userId : Nat) : DB :=
  { db with
      users := db.users.map (fun u =>
        if u.id == userId then { u with hiresCount := u.hiresCount + 1 } else u) }

/-- `Job.findByIdAndUpdate(jobId, \x7b $inc: \x7b applicationsCount: d \x7d \x7d)`. -/
def incApplicationsCount (db : DB) (jobId : Nat) (d : Int) : DB :=
  { db with
      jobs := db.jobs.map (fun j =>
        if j.id == jobId then { j with applicationsCount := j.applicationsCount + d } else j) }

def addTransaction (db : DB) (t : Transaction) : DB :=
  { db with transactions := db.transactions ++ [t] }

/-- The side-effect block of updateApplicationStatus
(src/controllers/application.ts, lines 327–407): the switch on the new
status inside the try block, calling the NotificationService embeddings
above exactly as the controller does (`employerName` is the
controller's `user.fullName || user.username`).  In the accepted branch
the payment amount is `job.salaryMax || job.salaryMin || 1000`, the
transaction save may reject (mongoose validation) which throws out of
the try block, so the hires increment only happens after a successful
save.  The controller never writes Job.status here. -/
def statusSideEffects (db : DB) (app : Application) (job : Job)
    (userId : Nat) (employerName : String)
    (previousStatus status : AppStatus) : DB :=
  match status with
  | .reviewed =>
      addNotification db
        (notifyApplicationReviewedDoc app.applicant userId job.id app.id
          job.title employerName)
  | .accepted =>
      let db1 := addNotification db
        (notifyApplicationAcceptedDoc app.applicant userId job.id app.id job.title)
      let paymentAmount := jsOr job.salaryMax (jsOr job.salaryMin 1000)
      match createJobPayment job.id userId app.applicant paymentAmount
          "credit_card" none with
      | Except.error _ => db1
      | Except.ok t => incHiresCount (addTransaction db1 t) userId
  | .rejected =>
      addNotification db
        (notifyApplicationRejectedDoc app.applicant userId job.id app.id job.title)
  | .pending =>
      if previousStatus ≠ .pending then
        addNotification db
          (notifyApplicationStatusChangedDoc app.applicant userId job.id app.id
            job.title "pending"
            (some "Your application status has been updated to pending review."))
      else db

/-- The 200 response body of updateApplicationStatus (the fields a
caller can observe about the outcome). -/
structure StatusResponse where
  success : Bool
  message : String
  appStatus : AppStatus
deriving DecidableEq

structure UpdateOutcome where
  db : DB
  response : StatusResponse
deriving DecidableEq

/-- `application.status = status; await application.save()` — the
unconditional status overwrite of updateApplicationStatus (lines
323–325).  The save persists the modified document; the post-save hook
does not fire its counter branch because the document is not new. -/
def saveStatus (db : DB) (applicationId : Nat) (app1 : Application) : DB :=
  { db with
      applications := db.applications.map (fun a =>
        if a.id == applicationId then app1 else a) }

/-- The body-status validator of the route
(src/vallidations/application.validation.ts, lines 19–23:
`isIn(["pending", "reviewed", "accepted", "rejected"])`), fused with
parsing the string into the status enum. -/
def parseStatus : String → Option AppStatus
  | "pending" => some AppStatus.pending
  | "reviewed" => some AppStatus.reviewed
  | "accepted" => some AppStatus.accepted
  | "rejected" => some AppStatus.rejected
  | _ => none

/-- Modelled from the spec: the `validate(...)` middleware wrapper
(src/middlewares/validation.ts is not among the sources; the route in
src/routes/application.ts attaches it around
updateApplicationStatusValidation, which is in the sources).  Per the
spec's error taxonomy, a request whose body fails validation is
rejected before the controller runs, carrying the validator's message
as a 4xx-equivalent error. -/
def validationErrorResponse : String × Nat :=
  ("Status must be: pending, reviewed, accepted, or rejected", 400)

/-- updateApplicationStatus (src/controllers/application.ts, lines
274–432), behind its route validator (non-enum strings are stopped by
the validate wrapper, see validationErrorResponse).  Steps, in source
order: load the acting user, require role "partner"; load the
application with its job; require job.postedBy == userId; remember
previousStatus; set and save the new status unconditionally (there is
no same-status check and no transition-table check); then run the
side-effect switch inside a try/catch that swallows errors, with
`employerName = user.fullName || user.username`.  `fxThrow = true`
models the first side-effect call of the switch throwing: the catch
swallows it, so the block contributes nothing and the response is
built exactly as on success (the response carries no warning field). -/
def updateApplicationStatus (db : DB) (applicationId : Nat)
    (statusStr : String) (userId : Nat) (fxThrow : Bool) :
    Except (String × Nat) UpdateOutcome :=
  match parseStatus statusStr with
  | none => Except.error validationErrorResponse
  | some status =>
    match findUser db userId with
    | none => Except.error ("User not found", 404)
    | some user =>
      if user.role ≠ "partner" then
        Except.error ("Only partners can update application status", 403)
      else
        match findApplication db applicationId with
        | none => Except.error ("Application not found", 404)
        | some app =>
          match findJob db app.job with
          | none => Except.error ("Cannot read properties of null", 500)
          | some job =>
            if job.postedBy ≠ userId then
              Except.error ("Not authorized to update this application", 403)
            else
              let previousStatus := app.status
              let employerName := jsOrStr user.fullName user.username
              let app1 := { app with status := status }
              let db1 := saveStatus db applicationId app1
              let db2 :=
                if fxThrow then db1
                else statusSideEffects db1 app1 job userId employerName
                  previousStatus status
              Except.ok
                { db := db2
                  response :=
                    { success := true
                      message := "Application " ++ statusStr ++ " successfully"
                      appStatus := status } }

/-- applyForJob (src/controllers/application.ts, lines 8–111).  Checks
in source order: acting user exists and has role "specialist"; job
exists and has status "active"; no existing application for
(job, applicant); the application deadline, when present, has not
passed.  Then `application.save()` persists the new document.  The
ApplicationSchema post("save") hook (src/models/application.ts, lines
58–64) guards its counter increment with `if (this.isNew)` — but under
mongoose ^8.15.0 (package.json) the document's isNew flag is reset to
false when the save completes, BEFORE post("save") middleware runs, so
the hook's increment never fires and contributes nothing here.  The
controller then notifies the employer via
NotificationService.notifyNewApplication (with
`user.fullName || user.username` as the applicant name) and explicitly
increments the job's applicationsCount by 1 (lines 93–96) — the only
increment that actually happens.  `newId` is the id Mongo assigns to
the new document; `now` is the clock reading of the deadline check. -/
def applyForJob (db : DB) (jobId userId newId now : Nat)
    (coverLetter resumeUrl : Option String) : Except (String × Nat) DB :=
  match findUser db userId with
  | none => Except.error ("User not found", 404)
  | some user =>
    if user.role ≠ "specialist" then
      Except.error ("Only specialists can apply for jobs", 403)
    else
      match findJob db jobId with
      | none => Except.error ("Job not found", 404)
      | some job =>
        if job.status ≠ "active" then
          Except.error ("This job is not accepting applications", 400)
        else if db.applications.any (fun a => a.job == jobId && a.applicant == userId) then
          Except.error ("You have already applied for this job", 400)
        else if (match job.applicationDeadline with
                 | some d => decide (now > d)
                 | none => false) = true then
          Except.error ("Application deadline has passed", 400)
        else
          let app : Application :=
            { id := newId
              job := jobId
              applicant := userId
              status := AppStatus.pending
              coverLetter := coverLetter
              resumeUrl := resumeUrl }
          let db1 := { db with applications := db.applications ++ [app] }
          let db2 := addNotification db1
            (notifyNewApplicationDoc job.postedBy userId jobId newId job.title
              (jsOrStr user.fullName user.username))
          Except.ok (incApplicationsCount db2 jobId 1)

/-- JavaScript Math.round on an exact rational: floor (q + 1/2). -/
def jsRound (q : ℚ) : Int := Int.floor (q + 1 / 2)

/-- The hiring metrics of handleEmployerData
(src/controllers/userOverview.ts, lines 535–554), computed over the
list of statuses of all applications received across the employer's
jobs: totalApplicationsReceived is the list length, totalHires the
count of accepted, totalRejections the count of rejected;
hireRate = round(totalHires / totalApplicationsReceived * 100) and
responseRate = round((totalHires + totalRejections) /
totalApplicationsReceived * 100), each 0 when
totalApplicationsReceived = 0. -/
def handleEmployerStats (apps : List AppStatus) : Int × Int :=
  let totalApplicationsReceived := apps.length
  let totalHires := (apps.filter AppStatus.isAccepted).length
  let totalRejections := (apps.filter AppStatus.isRejected).length
  let hireRate : Int :=
    if totalApplicationsReceived > 0 then
      jsRound ((totalHires : ℚ) / (totalApplicationsReceived : ℚ) * 100)
    else 0
  let responseRate : Int :=
    if totalApplicationsReceived > 0 then
      jsRound (((totalHires : ℚ) + (totalRejections : ℚ)) /
        (totalApplicationsReceived : ℚ) * 100)
    else 0
  (hireRate, responseRate)

/-- The spec's hiring-success-rate formula, stated from the spec's
words for comparison with the code: totalHires / (totalHires +
totalRejections) × 100, guarded to 0 on a zero denominator. -/
def specHiringSuccessRate (totalHires totalRejections : Nat) : ℚ :=
  if totalHires + totalRejections > 0 then
    (totalHires : ℚ) / ((totalHires : ℚ) + (totalRejections : ℚ)) * 100
  else 0

/-! Observation helpers over a DB. -/

def txCount (db : DB) : Nat := db.transactions.length

/-- Count of acceptance notifications: documents as produced by
notifyApplicationAccepted.  Because notifyApplicationReviewed reuses
the "application_accepted" enum value, the type alone does not
identify acceptances — the title does. -/
def acceptedNotifCount (db : DB) : Nat :=
  (db.notifications.filter (fun n =>
    n.ntype == "application_accepted" &&
    n.title == "Application Accepted! 🎉")).length

def statusOf (db : DB) (appId : Nat) : Option AppStatus :=
  (findApplication db appId).map Application.status

/-- The Transaction document the accepted branch creates for a job with
owner `uid` and applicant `app.applicant` (amount
`salaryMax || salaryMin || 1000`, default 10 percent fee). -/
def paymentTx (job : Job) (uid : Nat) (app : Application) : Transaction :=
  let amount := jsOr job.salaryMax (jsOr job.salaryMin 1000)
  { ttype := "job_payment"
    amount := amount
    platformFee := amount * 10 / 100
    netAmount := amount - amount * 10 / 100
    payer := uid
    payee := app.applicant
    job := job.id
    paymentMethod := "credit_card"
    description := "Payment for job completion"
    status := "completed" }

/-! Concrete fixture: one partner (id 10), one specialist (id 20), one
job (id 5, salaryMax 1000, active) owned by the partner, and one
application (id 1) by the specialist whose status is the parameter. -/

def exEmployer : User :=
  { id := 10, role := "partner", fullName := none, username := "acme"
    hiresCount := 0 }

def exApplicant : User :=
  { id := 20, role := "specialist", fullName := none, username := "sam"
    hiresCount := 0 }

def exJob : Job :=
  { id := 5, postedBy := 10, title := "Build", salaryMin := none
    salaryMax := some 1000, status := "active", applicationDeadline := none
    applicationsCount := 1 }

def exApp (s : AppStatus) : Application :=
  { id := 1, job := 5, applicant := 20, status := s
    coverLetter := none, resumeUrl := none }

def exDB (s : AppStatus) : DB :=
  { applications := [exApp s], jobs := [exJob]
    users := [exEmployer, exApplicant], transactions := [], notifications := [] }

/-- The fixture before any application exists (for applyForJob). -/
def exDB0 : DB :=
  { applications := [], jobs := [exJob]
    users := [exEmployer, exApplicant], transactions := [], notifications := [] }

/-! Claim-level specifications, as predicates on the outcome of the
embedded operations. -/

/-- Two back-to-back accepted requests: each appends one Transaction
and one accepted notification, so two calls append two of each. -/
def acceptTwiceSpec (db : DB) (appId uid : Nat) : Prop :=
  match (updateApplicationStatus db appId "accepted" uid false).bind
      (fun o => updateApplicationStatus o.db appId "accepted" uid false) with
  | Except.ok o =>
      txCount o.db = txCount db + 2 ∧
      acceptedNotifCount o.db = acceptedNotifCount db + 2
  | Except.error _ => False

/-- Requesting any enum status succeeds from any current status and
stores exactly the requested status; any non-enum string is rejected by
the route validator with a 400. -/
def anyEnumTransitionSpec (db : DB) (appId uid : Nat) (s : String) : Prop :=
  match parseStatus s with
  | some st =>
      match updateApplicationStatus db appId s uid false with
      | Except.ok o => statusOf o.db appId = some st
      | Except.error _ => False
  | none =>
      updateApplicationStatus db appId s uid false =
        Except.error validationErrorResponse

/-- Accepted transition on a job with salaryMax 1000: one Transaction
amount 1000 / fee 100 / net 900 is appended, the employer's hiresCount
rises by one, and the Job document (its status field included) is left
unchanged. -/
def acceptedHireSpec (db : DB) (appId uid : Nat) (app : Application)
    (job : Job) (user : User) : Prop :=
  match updateApplicationStatus db appId "accepted" uid false with
  | Except.ok o =>
      o.db.transactions = db.transactions ++
        [{ ttype := "job_payment", amount := 1000, platformFee := 100
           netAmount := 900, payer := uid, payee := app.applicant
           job := job.id, paymentMethod := "credit_card"
           description := "Payment for job completion", status := "completed" }] ∧
      findUser o.db uid = some { user with hiresCount := user.hiresCount + 1 } ∧
      findJob o.db job.id = some job
  | Except.error _ => False

/-- A request for the application's current status: the call succeeds;
pending→pending leaves the whole DB untouched, while accepted→accepted
re-fires the ledger side effect (one more Transaction). -/
def sameStatusSpec (db : DB) (appId uid : Nat) (s : String) (st : AppStatus) : Prop :=
  match updateApplicationStatus db appId s uid false with
  | Except.ok o =>
      o.response.success = true ∧
      (st = AppStatus.pending → o.db = db) ∧
      (st = AppStatus.accepted → txCount o.db = txCount db + 1)
  | Except.error _ => False

/-- A side-effect call throwing after the save: the new status stays
committed and a success response is returned, and that response is the
very same value as the full-success response — no warning reaches the
caller. -/
def sideFxSwallowSpec (db : DB) (appId uid : Nat) (s : String) (st : AppStatus) : Prop :=
  match updateApplicationStatus db appId s uid true,
        updateApplicationStatus db appId s uid false with
  | Except.ok oT, Except.ok oF =>
      statusOf oT.db appId = some st ∧
      oT.response.success = true ∧
      oT.response = oF.response
  | _, _ => False

/-- A pending→reviewed transition: the stored application changes in
its status field only (the schema holds no analytics field to set), no
Transaction is created, and exactly one notification is appended — the
reviewed notification of the service, whose recipient is the
applicant. -/
def reviewedEffectsSpec (db : DB) (appId uid : Nat) (app : Application)
    (job : Job) (user : User) : Prop :=
  match updateApplicationStatus db appId "reviewed" uid false with
  | Except.ok o =>
      findApplication o.db appId = some { app with status := AppStatus.reviewed } ∧
      o.db.transactions = db.transactions ∧
      o.db.notifications = db.notifications ++
        [notifyApplicationReviewedDoc app.applicant uid job.id app.id
          job.title (jsOrStr user.fullName user.username)] ∧
      (notifyApplicationReviewedDoc app.applicant uid job.id app.id
        job.title (jsOrStr user.fullName user.username)).recipient = app.applicant
  | Except.error _ => False

/-- What handleEmployerData computes: on an empty application list both
rates are 0; otherwise hireRate = round(hires / total × 100) and
responseRate = round((hires + rejections) / total × 100), and whenever
every received application is decided, hireRate coincides with the
rounded spec formula hires / (hires + rejections) × 100. -/
def employerRatesSpec (apps : List AppStatus) : Prop :=
  let total := apps.length
  let hires := (apps.filter AppStatus.isAccepted).length
  let rejections := (apps.filter AppStatus.isRejected).length
  if total = 0 then handleEmployerStats apps = (0, 0)
  else
    (handleEmployerStats apps).1 = jsRound ((hires : ℚ) / (total : ℚ) * 100) ∧
    (handleEmployerStats apps).2 =
      jsRound (((hires : ℚ) + (rejections : ℚ)) / (total : ℚ) * 100) ∧
    ((∀ a ∈ apps, a = AppStatus.accepted ∨ a = AppStatus.rejected) →
      (handleEmployerStats apps).1 = jsRound (specHiringSuccessRate hires rejections))

/-- The ledger invariant on a createJobPayment result: the created
Transaction carries the requested amount, a platform fee of 10 percent
of it, and netAmount + platformFee = amount (exact, hence to 2 decimal
places). -/
def paymentInvariant (amount : ℚ) (e : Except String Transaction) : Prop :=
  match e with
  | Except.ok t =>
      t.amount = amount ∧
      t.platformFee = amount * 10 / 100 ∧
      t.netAmount + t.platformFee = t.amount
  | Except.error _ => False

/-- A successful applyForJob raises the parent job's applicationsCount
by exactly 1: the controller's explicit $inc is the only increment
that runs — the post-save hook's isNew guard is already false when the
hook fires under mongoose 8. -/
def applyCountSpec (db : DB) (jobId uid newId now : Nat)
    (c r : Option String) (job : Job) : Prop :=
  match applyForJob db jobId uid newId now c r with
  | Except.ok db2 =>
      findJob db2 jobId =
        some { job with applicationsCount := job.applicationsCount + 1 }
  | Except.error _ => False

/-! Supporting lemmas. -/

theorem find?_map_pres {α : Type} (f : α → α) (p : α → Bool) (l : List α)
    (hp : ∀ a, p (f a) = p a) : (l.map f).find? p = (l.find? p).map f := by
  induction l with
  | nil => rfl
  | cons a t ih =>
      by_cases h : p a = true
      · have h2 : p (f a) = true := by rw [hp]; exact h
        rw [List.map_cons, List.find?_cons_of_pos _ h2, List.find?_cons_of_pos _ h,
          Option.map_some']
      · have h2 : ¬ p (f a) = true := by rw [hp]; exact h
        rw [List.map_cons, List.find?_cons_of_neg _ h2, List.find?_cons_of_neg _ h, ih]

theorem map_eq_self_of {α : Type} (f : α → α) (l : List α)
    (h : ∀ a ∈ l, f a = a) : l.map f = l := by
  induction l with
  | nil => rfl
  | cons a t ih =>
      rw [List.map_cons, h a (by simp), ih (fun x hx => h x (by simp [hx]))]

theorem findUser_congr (db1 db2 : DB) (uid : Nat) (h : db1.users = db2.users) :
    findUser db1 uid = findUser db2 uid := by
  unfold findUser; rw [h]

theorem findJob_congr (db1 db2 : DB) (i : Nat) (h : db1.jobs = db2.jobs) :
    findJob db1 i = findJob db2 i := by
  unfold findJob; rw [h]

theorem findApplication_congr (db1 db2 : DB) (i : Nat)
    (h : db1.applications = db2.applications) :
    findApplication db1 i = findApplication db2 i := by
  unfold findApplication; rw [h]

theorem findUser_id (db : DB) (uid : Nat) (user : User)
    (hu : findUser db uid = some user) : user.id = uid := by
  unfold findUser at hu
  simpa using List.find?_some hu

theorem findJob_id (db : DB) (i : Nat) (job : Job)
    (hj : findJob db i = some job) : job.id = i := by
  unfold findJob at hj
  simpa using List.find?_some hj

theorem findApplication_id (db : DB) (i : Nat) (app : Application)
    (ha : findApplication db i = some app) : app.id = i := by
  unfold findApplication at ha
  simpa using List.find?_some ha

theorem findApplication_saveStatus (db : DB) (appId : Nat) (app app1 : Application)
    (ha : findApplication db appId = some app) (hid : app1.id = app.id) :
    findApplication (saveStatus db appId app1) appId = some app1 := by
  have hid2 : app.id = appId := findApplication_id db appId app ha
  have hp : ∀ a : Application,
      ((if a.id == appId then app1 else a).id == appId) = (a.id == appId) := by
    intro a
    cases h : (a.id == appId) with
    | true =>
        simp only [h, if_true]
        rw [hid, hid2]
        simp
    | false => simp [h]
  unfold findApplication at ha
  unfold findApplication saveStatus
  rw [find?_map_pres _ _ _ hp, ha, Option.map_some']
  simp [hid2]

theorem findUser_incHiresCount (db : DB) (v uid : Nat) :
    findUser (incHiresCount db v) uid =
      (findUser db uid).map (fun u =>
        if u.id == v then { u with hiresCount := u.hiresCount + 1 } else u) := by
  unfold findUser incHiresCount
  refine find?_map_pres _ _ _ (fun a => ?_)
  cases h : (a.id == v) with
  | true => simp [h]
  | false => simp [h]

theorem findJob_incApplicationsCount (db : DB) (v : Nat) (d : Int) (i : Nat) :
    findJob (incApplicationsCount db v d) i =
      (findJob db i).map (fun j =>
        if j.id == v then { j with applicationsCount := j.applicationsCount + d } else j) := by
  unfold findJob incApplicationsCount
  refine find?_map_pres _ _ _ (fun a => ?_)
  cases h : (a.id == v) with
  | true => simp [h]
  | false => simp [h]

@[simp] theorem findUser_saveStatus (db : DB) (i : Nat) (a : Application) (uid : Nat) :
    findUser (saveStatus db i a) uid = findUser db uid := rfl

@[simp] theorem findUser_addNotification (db : DB) (n : Notification) (uid : Nat) :
    findUser (addNotification db n) uid = findUser db uid := rfl

@[simp] theorem findUser_addTransaction (db : DB) (t : Transaction) (uid : Nat) :
    findUser (addTransaction db t) uid = findUser db uid := rfl

@[simp] theorem findJob_saveStatus (db : DB) (i : Nat) (a : Application) (j : Nat) :
    findJob (saveStatus db i a) j = findJob db j := rfl

@[simp] theorem findJob_addNotification (db : DB) (n : Notification) (j : Nat) :
    findJob (addNotification db n) j = findJob db j := rfl

@[simp] theorem findJob_addTransaction (db : DB) (t : Transaction) (j : Nat) :
    findJob (addTransaction db t) j = findJob db j := rfl

@[simp] theorem findJob_incHiresCount (db : DB) (v j : Nat) :
    findJob (incHiresCount db v) j = findJob db j := rfl

@[simp] theorem findApplication_addNotification (db : DB) (n : Notification) (i : Nat) :
    findApplication (addNotification db n) i = findApplication db i := rfl

@[simp] theorem findApplication_addTransaction (db : DB) (t : Transaction) (i : Nat) :
    findApplication (addTransaction db t) i = findApplication db i := rfl

@[simp] theorem findApplication_incHiresCount (db : DB) (v i : Nat) :
    findApplication (incHiresCount db v) i = findApplication db i := rfl

@[simp] theorem txCount_saveStatus (db : DB) (i : Nat) (a : Application) :
    txCount (saveStatus db i a) = txCount db := rfl

@[simp] theorem txCount_addNotification (db : DB) (n : Notification) :
    txCount (addNotification db n) = txCount db := rfl

@[simp] theorem txCount_incHiresCount (db : DB) (v : Nat) :
    txCount (incHiresCount db v) = txCount db := rfl

@[simp] theorem txCount_addTransaction (db : DB) (t : Transaction) :
    txCount (addTransaction db t) = txCount db + 1 := by
  simp [txCount, addTransaction]

theorem statusSideEffects_applications (db : DB) (app : Application) (job : Job)
    (uid : Nat) (en : String) (prev st : AppStatus) :
    (statusSideEffects db app job uid en prev st).applications = db.applications := by
  cases st <;>
    simp only [statusSideEffects] <;>
    (try split) <;>
    simp [addNotification, addTransaction, incHiresCount]

theorem statusSideEffects_jobs (db : DB) (app : Application) (job : Job)
    (uid : Nat) (en : String) (prev st : AppStatus) :
    (statusSideEffects db app job uid en prev st).jobs = db.jobs := by
  cases st <;>
    simp only [statusSideEffects] <;>
    (try split) <;>
    simp [addNotification, addTransaction, incHiresCount]

theorem jsOr_pos (a : Option ℚ) (b : ℚ) (ha : ∀ x ∈ a, 0 ≤ x) (hb : 0 < b) :
    0 < jsOr a b := by
  cases a with
  | none => simpa [jsOr] using hb
  | some x =>
      by_cases hx : x = 0
      · simpa [jsOr, hx] using hb
      · have h0 : 0 ≤ x := ha x rfl
        have h1 : 0 < x := lt_of_le_of_ne h0 (Ne.symm hx)
        simpa [jsOr, hx] using h1

theorem createJobPayment_pos (j e s : Nat) (pm : String) (amount : ℚ)
    (h : 0 < amount) :
    createJobPayment j e s amount pm none = Except.ok
      { ttype := "job_payment", amount := amount
        platformFee := amount * 10 / 100
        netAmount := amount - amount * 10 / 100
        payer := e, payee := s, job := j, paymentMethod := pm
        description := "Payment for job completion", status := "completed" } := by
  have h1 : ¬ amount < 0 := by linarith
  have hfee : (0 : ℚ) ≤ amount * 10 / 100 := by positivity
  have h2 : ¬ amount * 10 / 100 < 0 := not_lt.mpr hfee
  have h3 : ¬ amount - amount * 10 / 100 < 0 := by
    have he : amount - amount * 10 / 100 = amount * (9 / 10) := by ring
    have hp : 0 < amount * (9 / 10) := by positivity
    rw [he]
    exact not_lt.mpr (le_of_lt hp)
  simp [createJobPayment, h1, h2, h3]

theorem statusSideEffects_accepted (db : DB) (app : Application) (job : Job)
    (uid : Nat) (en : String) (prev : AppStatus)
    (hmax : ∀ x ∈ job.salaryMax, 0 ≤ x) (hmin : ∀ x ∈ job.salaryMin, 0 ≤ x) :
    statusSideEffects db app job uid en prev AppStatus.accepted =
      incHiresCount
        (addTransaction
          (addNotification db
            (notifyApplicationAcceptedDoc app.applicant uid job.id app.id job.title))
          (paymentTx job uid app))
        uid := by
  have hpos : 0 < jsOr job.salaryMax (jsOr job.salaryMin 1000) :=
    jsOr_pos _ _ hmax (jsOr_pos _ _ hmin (by norm_num))
  simp [statusSideEffects, createJobPayment_pos _ _ _ _ _ hpos, paymentTx]

theorem updateApplicationStatus_ok_eq
    (db : DB) (appId uid : Nat) (s : String) (st : AppStatus) (fx : Bool)
    (user : User) (app : Application) (job : Job)
    (hs : parseStatus s = some st)
    (hu : findUser db uid = some user)
    (hrole : user.role = "partner")
    (ha : findApplication db appId = some app)
    (hj : findJob db app.job = some job)
    (hpb : job.postedBy = uid) :
    updateApplicationStatus db appId s uid fx =
      Except.ok
        { db :=
            if fx then saveStatus db appId { app with status := st }
            else
              statusSideEffects (saveStatus db appId { app with status := st })
                { app with status := st } job uid
                (jsOrStr user.fullName user.username) app.status st
          response :=
            { success := true
              message := "Application " ++ s ++ " successfully"
              appStatus := st } } := by
  simp only [updateApplicationStatus, hs, hu, ha, hj, hrole, hpb, ne_eq,
    not_true_eq_false, if_false, ite_self]

theorem updateApplicationStatus_ok_noFx
    (db : DB) (appId uid : Nat) (s : String) (st : AppStatus)
    (user : User) (app : Application) (job : Job)
    (hs : parseStatus s = some st)
    (hu : findUser db uid = some user)
    (hrole : user.role = "partner")
    (ha : findApplication db appId = some app)
    (hj : findJob db app.job = some job)
    (hpb : job.postedBy = uid) :
    updateApplicationStatus db appId s uid false =
      Except.ok
        { db :=
            statusSideEffects (saveStatus db appId { app with status := st })
              { app with status := st } job uid
              (jsOrStr user.fullName user.username) app.status st
          response :=
            { success := true
              message := "Application " ++ s ++ " successfully"
              appStatus := st } } := by
  rw [updateApplicationStatus_ok_eq db appId uid s st false user app job
    hs hu hrole ha hj hpb]
  simp

theorem accepted_call_eq
    (db : DB) (appId uid : Nat) (s : String)
    (user : User) (app : Application) (job : Job)
    (hs : parseStatus s = some AppStatus.accepted)
    (hu : findUser db uid = some user) (hrole : user.role = "partner")
    (ha : findApplication db appId = some app)
    (hj : findJob db app.job = some job) (hpb : job.postedBy = uid)
    (hmax : ∀ x ∈ job.salaryMax, 0 ≤ x) (hmin : ∀ x ∈ job.salaryMin, 0 ≤ x) :
    updateApplicationStatus db appId s uid false =
      Except.ok
        { db :=
            incHiresCount
              (addTransaction
                (addNotification
                  (saveStatus db appId { app with status := AppStatus.accepted })
                  (notifyApplicationAcceptedDoc app.applicant uid job.id app.id
                    job.title))
                (paymentTx job uid { app with status := AppStatus.accepted }))
              uid
          response :=
            { success := true
              message := "Application " ++ s ++ " successfully"
              appStatus := AppStatus.accepted } } := by
  rw [updateApplicationStatus_ok_eq db appId uid s AppStatus.accepted false
    user app job hs hu hrole ha hj hpb]
  rw [statusSideEffects_accepted _ _ _ _ _ _ hmax hmin]
  simp

/-- C1 counterexample: on the concrete fixture (application in
reviewed), invoking updateApplicationStatus with "accepted" twice in a
row yields TWO Transaction records and TWO acceptance notifications
(documents as saved by notifyApplicationAccepted, identified by type
and title since notifyApplicationReviewed reuses the same type) for
the (job, application) pair — not one, as the claim states.  The
handler has no once-only guard: it re-runs the full accepted branch on
the second call. -/
theorem c1_counterexample :
    ((updateApplicationStatus (exDB AppStatus.reviewed) 1 "accepted" 10 false).bind
      (fun o => updateApplicationStatus o.db 1 "accepted" 10 false)).map
      (fun o => (txCount o.db, acceptedNotifCount o.db)) = Except.ok (2, 2) := by
  norm_num [updateApplicationStatus, parseStatus, findUser, findApplication, findJob,
    exDB, exApp, exJob, exEmployer, exApplicant, List.find?, saveStatus,
    statusSideEffects, createJobPayment, jsOr, jsOrStr, addNotification,
    addTransaction, incHiresCount, notifyApplicationAcceptedDoc, txCount,
    acceptedNotifCount, Except.map, Except.bind, List.filter]

/-- C1 (amended): the transition handler is NOT idempotent.  Every
invocation of updateApplicationStatus with "accepted" — including a
repeated one for the same event — appends one more Transaction and one
more accepted notification, so two calls in a row produce exactly two
of each, not one. -/
theorem c1_accept_twice_not_idempotent
    (db : DB) (appId uid : Nat)
    (user : User) (app : Application) (job : Job)
    (hu : findUser db uid = some user) (hrole : user.role = "partner")
    (ha : findApplication db appId = some app)
    (hj : findJob db app.job = some job) (hpb : job.postedBy = uid)
    (hmax : ∀ x ∈ job.salaryMax, 0 ≤ x) (hmin : ∀ x ∈ job.salaryMin, 0 ≤ x) :
    acceptTwiceSpec db appId uid := by
  unfold acceptTwiceSpec
  have huid : user.id = uid := findUser_id db uid user hu
  have e1 := accepted_call_eq db appId uid "accepted" user app job rfl
    hu hrole ha hj hpb hmax hmin
  set app1 : Application := { app with status := AppStatus.accepted } with happ1
  set db1 : DB :=
    incHiresCount
      (addTransaction
        (addNotification (saveStatus db appId app1)
          (notifyApplicationAcceptedDoc app.applicant uid job.id app.id job.title))
        (paymentTx job uid app1))
      uid with hdb1
  have hu2 : findUser db1 uid = some { user with hiresCount := user.hiresCount + 1 } := by
    rw [hdb1, findUser_incHiresCount]
    have hsame : findUser
        (addTransaction
          (addNotification (saveStatus db appId app1)
            (notifyApplicationAcceptedDoc app.applicant uid job.id app.id job.title))
          (paymentTx job uid app1)) uid = findUser db uid := rfl
    rw [hsame, hu, Option.map_some']
    simp [huid]
  have ha2 : findApplication db1 appId = some app1 := by
    have hsame : findApplication db1 appId =
        findApplication (saveStatus db appId app1) appId := rfl
    rw [hsame, findApplication_saveStatus db appId app app1 ha rfl]
  have hj2 : findJob db1 app1.job = some job := by
    have hsame : findJob db1 app1.job = findJob db app.job := rfl
    rw [hsame, hj]
  have e2 := accepted_call_eq db1 appId uid "accepted"
    { user with hiresCount := user.hiresCount + 1 } app1 job rfl
    hu2 hrole ha2 hj2 hpb hmax hmin
  rw [e1]
  simp only [Except.bind]
  rw [e2]
  refine ⟨?_, ?_⟩
  · simp [txCount, hdb1, incHiresCount, addTransaction, addNotification, saveStatus]
  · simp [acceptedNotifCount, hdb1, incHiresCount,
      addTransaction, addNotification, saveStatus, notifyApplicationAcceptedDoc,
      List.filter_append]

/-- C1 witness: the amended two-call statement instantiated on the
concrete fixture, every hypothesis discharged there. -/
theorem c1_accept_twice_witness : acceptTwiceSpec (exDB AppStatus.reviewed) 1 10 :=
  c1_accept_twice_not_idempotent (exDB AppStatus.reviewed) 1 10 exEmployer
    (exApp AppStatus.reviewed) exJob rfl rfl rfl rfl rfl
    (by intro x hx; simp [exJob] at hx; norm_num [← hx])
    (by intro x hx; simp [exJob] at hx)

/-- C2 counterexample: on the concrete fixture the application is in
the terminal status accepted, yet a request for "pending" by the job
owner succeeds and stores pending — terminal statuses are not
absorbing and reviewed→pending-style regressions are not blocked,
contradicting the claim that status only moves along the §4.1 edges. -/
theorem c2_counterexample :
    (updateApplicationStatus (exDB AppStatus.accepted) 1 "pending" 10 false).map
      (fun o => statusOf o.db 1) = Except.ok (some AppStatus.pending) := by rfl

/-- C2 (amended): the controller performs no transition-table check at
all.  For an authorized partner, any of the four enum statuses
(pending, reviewed, accepted, rejected) is stored from ANY current
status — so accepted, rejected are not absorbing and reviewed→pending
is possible; any other requested string ("withdrawn" included, which
is not a representable status) fails the route's isIn validator and is
rejected before the controller runs with the validator's message as a
400 (the validate middleware wrapper is spec-modelled, see
validationErrorResponse; the isIn list itself is source). -/
theorem c2_no_transition_check
    (db : DB) (appId uid : Nat) (s : String)
    (user : User) (app : Application) (job : Job)
    (hu : findUser db uid = some user) (hrole : user.role = "partner")
    (ha : findApplication db appId = some app)
    (hj : findJob db app.job = some job) (hpb : job.postedBy = uid) :
    anyEnumTransitionSpec db appId uid s := by
  unfold anyEnumTransitionSpec
  cases hs : parseStatus s with
  | none => simp [updateApplicationStatus, hs]
  | some st =>
      rw [updateApplicationStatus_ok_eq db appId uid s st false
        user app job hs hu hrole ha hj hpb]
      show statusOf
        (statusSideEffects (saveStatus db appId { app with status := st })
          { app with status := st } job uid
          (jsOrStr user.fullName user.username) app.status st) appId = some st
      unfold statusOf
      rw [findApplication_congr _ (saveStatus db appId { app with status := st })
        appId (statusSideEffects_applications _ _ _ _ _ _ _)]
      rw [findApplication_saveStatus db appId app { app with status := st } ha rfl]
      rfl

/-- C2 witness: the amended statement instantiated on the fixture with
the application already accepted and "pending" requested. -/
theorem c2_no_transition_check_witness :
    anyEnumTransitionSpec (exDB AppStatus.accepted) 1 10 "pending" :=
  c2_no_transition_check (exDB AppStatus.accepted) 1 10 "pending" exEmployer
    (exApp AppStatus.accepted) exJob rfl rfl rfl rfl rfl

/-- C3 counterexample: in the accepted-transition scenario of the claim
(application reviewed, salaryMax 1000) the parent Job's status stays
"active" — the controller never sets it to "completed", contradicting
that conjunct of the claim.  (Transaction amounts and the hires counter
do behave as claimed; see the amended theorem.) -/
theorem c3_counterexample :
    (updateApplicationStatus (exDB AppStatus.reviewed) 1 "accepted" 10 false).map
      (fun o => (findJob o.db 5).map Job.status) = Except.ok (some "active") ∧
    ("active" : String) ≠ "completed" := by
  constructor
  · norm_num [updateApplicationStatus, parseStatus, findUser, findApplication,
      findJob, exDB, exApp, exJob, exEmployer, exApplicant, List.find?, saveStatus,
      statusSideEffects, createJobPayment, jsOr, jsOrStr, addNotification,
      addTransaction, incHiresCount, notifyApplicationAcceptedDoc, Except.map,
      Option.map]
  · decide

/-- C3 (amended): accepting a reviewed application of a job with
salaryMax 1000 appends exactly one Transaction with amount 1000,
platformFee 100 and netAmount 900, and increments the employer's
employerProfile.hiresCount by exactly 1 — but the parent Job document
is left entirely unchanged (its status is NOT set to completed). -/
theorem c3_accept_hire_effects
    (db : DB) (appId uid : Nat)
    (user : User) (app : Application) (job : Job)
    (hu : findUser db uid = some user) (hrole : user.role = "partner")
    (ha : findApplication db appId = some app)
    (hj : findJob db app.job = some job) (hpb : job.postedBy = uid)
    (hsalmax : job.salaryMax = some 1000)
    (hmin : ∀ x ∈ job.salaryMin, 0 ≤ x) :
    acceptedHireSpec db appId uid app job user := by
  have hmax : ∀ x ∈ job.salaryMax, 0 ≤ x := by
    rw [hsalmax]; intro x hx; simp at hx; norm_num [← hx]
  unfold acceptedHireSpec
  rw [accepted_call_eq db appId uid "accepted" user app job rfl
    hu hrole ha hj hpb hmax hmin]
  refine ⟨?_, ?_, ?_⟩
  · norm_num [incHiresCount, addTransaction, addNotification, saveStatus,
      paymentTx, jsOr, hsalmax]
  · rw [findUser_incHiresCount]
    simp only [findUser_addTransaction, findUser_addNotification, findUser_saveStatus]
    rw [hu, Option.map_some']
    simp [findUser_id db uid user hu]
  · have hjid : job.id = app.job := findJob_id db app.job job hj
    simp only [findJob_incHiresCount, findJob_addTransaction,
      findJob_addNotification, findJob_saveStatus]
    rw [hjid, hj]

/-- C3 witness: the amended statement instantiated on the concrete
fixture (application reviewed, job salaryMax 1000). -/
theorem c3_accept_hire_effects_witness :
    acceptedHireSpec (exDB AppStatus.reviewed) 1 10
      (exApp AppStatus.reviewed) exJob exEmployer :=
  c3_accept_hire_effects (exDB AppStatus.reviewed) 1 10 exEmployer
    (exApp AppStatus.reviewed) exJob rfl rfl rfl rfl rfl rfl
    (by intro x hx; simp [exJob] at hx)

/-- C4 counterexample: on the concrete fixture the application is
already accepted and "accepted" is requested again: the call does NOT
fail with an InvalidTransition error — it returns success AND fires
the accepted side effects again (a fresh Transaction appears),
contradicting both parts of the claim. -/
theorem c4_counterexample :
    (updateApplicationStatus (exDB AppStatus.accepted) 1 "accepted" 10 false).map
      (fun o => (o.response.success, txCount o.db)) = Except.ok (true, 1) := by
  norm_num [updateApplicationStatus, parseStatus, findUser, findApplication,
    findJob, exDB, exApp, exJob, exEmployer, exApplicant, List.find?, saveStatus,
    statusSideEffects, createJobPayment, jsOr, jsOrStr, addNotification,
    addTransaction, incHiresCount, notifyApplicationAcceptedDoc, txCount,
    Except.map]

/-- C4 (amended): a request whose status equals the application's
current status always succeeds (there is no same-status or no-op
check).  For pending→pending the database is left completely unchanged
(the side-effect switch sends nothing), but for accepted→accepted the
accepted side effects fire again, appending one more Transaction. -/
theorem c4_same_status_succeeds
    (db : DB) (appId uid : Nat) (s : String) (st : AppStatus)
    (user : User) (app : Application) (job : Job)
    (hparse : parseStatus s = some st)
    (hcur : app.status = st)
    (hu : findUser db uid = some user) (hrole : user.role = "partner")
    (ha : findApplication db appId = some app)
    (hj : findJob db app.job = some job) (hpb : job.postedBy = uid)
    (hmax : ∀ x ∈ job.salaryMax, 0 ≤ x) (hmin : ∀ x ∈ job.salaryMin, 0 ≤ x)
    (huniq : ∀ a ∈ db.applications, a.id = app.id → a = app) :
    sameStatusSpec db appId uid s st := by
  unfold sameStatusSpec
  rw [updateApplicationStatus_ok_noFx db appId uid s st user app job
    hparse hu hrole ha hj hpb]
  refine ⟨rfl, ?_, ?_⟩
  · intro hpend
    subst hpend
    have happ : { app with status := AppStatus.pending } = app := by
      rw [← hcur]
    rw [happ]
    have hse : statusSideEffects (saveStatus db appId app) app job uid
        (jsOrStr user.fullName user.username)
        app.status AppStatus.pending = saveStatus db appId app := by
      simp [statusSideEffects, hcur]
    rw [hse]
    have hid : app.id = appId := findApplication_id db appId app ha
    show { db with
        applications := db.applications.map (fun a =>
          if a.id == appId then app else a) } = db
    have hmapid : db.applications.map (fun a =>
        if a.id == appId then app else a) = db.applications := by
      apply map_eq_self_of
      intro a haa
      cases h : (a.id == appId) with
      | true =>
          simp only [h, if_true]
          have hpa : a.id = app.id := by
            have h2 : a.id = appId := by simpa using h
            rw [h2, hid]
          exact (huniq a haa hpa).symm
      | false => simp [h]
    rw [hmapid]
  · intro hacc
    subst hacc
    rw [statusSideEffects_accepted _ _ _ _ _ _ hmax hmin]
    simp

/-- C4 witness: the amended statement instantiated with an already
accepted application and "accepted" requested again. -/
theorem c4_same_status_succeeds_witness :
    sameStatusSpec (exDB AppStatus.accepted) 1 10 "accepted" AppStatus.accepted :=
  c4_same_status_succeeds (exDB AppStatus.accepted) 1 10 "accepted"
    AppStatus.accepted exEmployer (exApp AppStatus.accepted) exJob
    rfl rfl rfl rfl rfl rfl rfl
    (by intro x hx; simp [exJob] at hx; norm_num [← hx])
    (by intro x hx; simp [exJob] at hx)
    (by
      intro a haa h
      simp only [exDB, List.mem_singleton] at haa
      exact haa)

/-- C5 counterexample: on the concrete fixture, the run in which the
first side-effect call throws returns exactly the same response value
as the fully successful run — the response carries no warning and
nothing in it indicates the partial failure, contradicting that
conjunct of the claim (the status commit and the success return do
hold, see the second conjunct and the amended theorem). -/
theorem c5_counterexample :
    (updateApplicationStatus (exDB AppStatus.reviewed) 1 "accepted" 10 true).map
      UpdateOutcome.response =
    (updateApplicationStatus (exDB AppStatus.reviewed) 1 "accepted" 10 false).map
      UpdateOutcome.response ∧
    (updateApplicationStatus (exDB AppStatus.reviewed) 1 "accepted" 10 true).map
      (fun o => statusOf o.db 1) = Except.ok (some AppStatus.accepted) := by
  exact ⟨rfl, rfl⟩

/-- C5 (amended): when a side-effect call throws after the save, the
catch swallows it: the persisted status change stays committed, the
call still reports success — but the response is the very same value
as in the no-failure run, so the partial failure is NOT indicated to
the caller (it is only logged). -/
theorem c5_side_effect_swallowed
    (db : DB) (appId uid : Nat) (s : String) (st : AppStatus)
    (user : User) (app : Application) (job : Job)
    (hparse : parseStatus s = some st)
    (hu : findUser db uid = some user) (hrole : user.role = "partner")
    (ha : findApplication db appId = some app)
    (hj : findJob db app.job = some job) (hpb : job.postedBy = uid) :
    sideFxSwallowSpec db appId uid s st := by
  unfold sideFxSwallowSpec
  rw [updateApplicationStatus_ok_eq db appId uid s st true user app job
    hparse hu hrole ha hj hpb,
    updateApplicationStatus_ok_noFx db appId uid s st user app job
    hparse hu hrole ha hj hpb]
  refine ⟨?_, rfl, rfl⟩
  show Option.map Application.status
    (findApplication (saveStatus db appId { app with status := st }) appId) = some st
  rw [findApplication_saveStatus db appId app { app with status := st } ha rfl]
  rfl

/-- C5 witness: the amended statement instantiated on the fixture with
the accepted transition and a throwing first side-effect call. -/
theorem c5_side_effect_swallowed_witness :
    sideFxSwallowSpec (exDB AppStatus.reviewed) 1 10 "accepted" AppStatus.accepted :=
  c5_side_effect_swallowed (exDB AppStatus.reviewed) 1 10 "accepted"
    AppStatus.accepted exEmployer (exApp AppStatus.reviewed) exJob
    rfl rfl rfl rfl rfl rfl

/-- C6 counterexample: the Application schema has no timeToReview field
at all (first conjunct: it is not among the schema's fields), and on
the concrete fixture the document stored by the pending→reviewed
transition differs from the original application in the status field
only — no elapsed-hours analytics value is recorded anywhere, contrary
to the claim's timeToReview conjunct. -/
theorem c6_counterexample :
    ("timeToReview" ∈ applicationSchemaFields ↔ False) ∧
    (updateApplicationStatus (exDB AppStatus.pending) 1 "reviewed" 10 false).map
      (fun o => o.db.applications) =
      Except.ok [{ exApp AppStatus.pending with status := AppStatus.reviewed }] := by
  constructor
  · simp [applicationSchemaFields]
  · rfl

/-- C6 (amended): a pending→reviewed transition by the job owner
changes the stored application in its status field only (no
timeToReview exists to set), creates no Transaction, and appends
exactly one notification — the notifyApplicationReviewed document,
whose recipient is the applicant (saved, because the service reuses
the existing enum value, with type "application_accepted" and title
"Application Under Review"). -/
theorem c6_reviewed_effects
    (db : DB) (appId uid : Nat)
    (user : User) (app : Application) (job : Job)
    (_hcur : app.status = AppStatus.pending)
    (hu : findUser db uid = some user) (hrole : user.role = "partner")
    (ha : findApplication db appId = some app)
    (hj : findJob db app.job = some job) (hpb : job.postedBy = uid) :
    reviewedEffectsSpec db appId uid app job user := by
  unfold reviewedEffectsSpec
  rw [updateApplicationStatus_ok_noFx db appId uid "reviewed" AppStatus.reviewed
    user app job rfl hu hrole ha hj hpb]
  have hse : statusSideEffects
      (saveStatus db appId { app with status := AppStatus.reviewed })
      { app with status := AppStatus.reviewed } job uid
      (jsOrStr user.fullName user.username) app.status
      AppStatus.reviewed =
      addNotification (saveStatus db appId { app with status := AppStatus.reviewed })
        (notifyApplicationReviewedDoc app.applicant uid job.id app.id
          job.title (jsOrStr user.fullName user.username)) := by
    simp [statusSideEffects]
  rw [hse]
  refine ⟨?_, ?_, ?_, rfl⟩
  · simp only [findApplication_addNotification]
    exact findApplication_saveStatus db appId app
      { app with status := AppStatus.reviewed } ha rfl
  · simp [addNotification, saveStatus]
  · simp [addNotification, saveStatus]

/-- C6 witness: the amended statement instantiated on the fixture with
a pending application reviewed by the job owner. -/
theorem c6_reviewed_effects_witness :
    reviewedEffectsSpec (exDB AppStatus.pending) 1 10
      (exApp AppStatus.pending) exJob exEmployer :=
  c6_reviewed_effects (exDB AppStatus.pending) 1 10 exEmployer
    (exApp AppStatus.pending) exJob rfl rfl rfl rfl rfl rfl

theorem length_filter_decided (apps : List AppStatus)
    (h : ∀ a ∈ apps, a = AppStatus.accepted ∨ a = AppStatus.rejected) :
    apps.length = (apps.filter AppStatus.isAccepted).length +
      (apps.filter AppStatus.isRejected).length := by
  induction apps with
  | nil => rfl
  | cons a t ih =>
      have ht := ih (fun x hx => h x (List.mem_cons_of_mem a hx))
      rcases h a (List.mem_cons_self a t) with h1 | h1 <;> subst h1 <;>
        simp [List.filter, AppStatus.isAccepted, AppStatus.isRejected, ht] <;>
        omega

/-- C7 counterexample: an employer with totalHires = 3 and
totalRejections = 1 out of 6 applications received: the code computes
a hire rate of 50 (it divides by all applications received), while the
claimed formula totalHires / (totalHires + totalRejections) × 100
gives 75 — the computed rate is not the claimed one. -/
theorem c7_counterexample :
    (handleEmployerStats [AppStatus.accepted, AppStatus.accepted,
        AppStatus.accepted, AppStatus.rejected, AppStatus.pending,
        AppStatus.pending]).1 = 50 ∧
    specHiringSuccessRate 3 1 = 75 ∧ ((50 : Int) ≠ 75) := by
  refine ⟨?_, ?_, by decide⟩
  · norm_num [handleEmployerStats, jsRound, AppStatus.isAccepted,
      AppStatus.isRejected, List.filter]
  · norm_num [specHiringSuccessRate]

/-- C7 (amended): handleEmployerData computes
hireRate = round(totalHires / totalApplicationsReceived × 100) —
dividing by ALL applications received, not by the decided ones — and
responseRate = round((totalHires + totalRejections) /
totalApplicationsReceived × 100), both returning 0 when no
applications were received.  The claimed hiringSuccessRate formula is
matched (up to JavaScript rounding) exactly when every received
application has been decided. -/
theorem c7_employer_rates (apps : List AppStatus) : employerRatesSpec apps := by
  unfold employerRatesSpec
  by_cases h : apps.length = 0
  · simp [h, handleEmployerStats]
  · have hpos : 0 < apps.length := Nat.pos_of_ne_zero h
    simp only [h, if_false]
    refine ⟨?_, ?_, ?_⟩
    · simp [handleEmployerStats, hpos]
    · simp [handleEmployerStats, hpos]
    · intro hall
      have hdec := length_filter_decided apps hall
      have hsum : 0 < (apps.filter AppStatus.isAccepted).length +
          (apps.filter AppStatus.isRejected).length := by
        rw [← hdec]; exact hpos
      simp only [handleEmployerStats, specHiringSuccessRate]
      rw [if_pos hpos, if_pos hsum]
      congr 1
      rw [hdec]
      push_cast
      ring

/-- C8: for every positive amount, createJobPayment succeeds and the
created Transaction satisfies amount = requested amount,
platformFee = 10 percent of amount (the default fee), and
netAmount + platformFee = amount — exactly, in the exact-rational
model of JavaScript numbers, hence in particular to 2 decimal
places. -/
theorem c8_payment_invariant (j e s : Nat) (pm : String) (amount : ℚ)
    (h : 0 < amount) :
    paymentInvariant amount (createJobPayment j e s amount pm none) := by
  rw [createJobPayment_pos j e s pm amount h]
  refine ⟨rfl, rfl, ?_⟩
  show amount - amount * 10 / 100 + amount * 10 / 100 = amount
  ring

/-- C8 witness: the invariant instantiated at amount 1000. -/
theorem c8_payment_invariant_witness :
    paymentInvariant 1000 (createJobPayment 5 10 20 1000 "credit_card" none) :=
  c8_payment_invariant 5 10 20 "credit_card" 1000 (by norm_num)

/-- C9 counterexample: createJobPayment with amount = 0 (an amount ≤ 0)
does NOT fail — the service has no amount check, and the schema's
min-0 validators all pass at 0, so a zero-amount Transaction document
is created, contradicting the claim. -/
theorem c9_counterexample :
    createJobPayment 5 10 20 0 "credit_card" none = Except.ok
      { ttype := "job_payment", amount := 0, platformFee := 0, netAmount := 0
        payer := 10, payee := 20, job := 5, paymentMethod := "credit_card"
        description := "Payment for job completion", status := "completed" } := by
  norm_num [createJobPayment]

/-- C9 (amended): createJobPayment itself performs no InvalidAmount
check.  A strictly negative amount is rejected only by the mongoose
schema validation on save ("Amount must be positive"), creating no
Transaction; amount = 0 passes validation and creates a zero
Transaction (see the counterexample). -/
theorem c9_negative_amount_schema_error (j e s : Nat) (pm : String)
    (amount : ℚ) (h : amount < 0) :
    createJobPayment j e s amount pm none =
      Except.error "Amount must be positive" := by
  simp [createJobPayment, h]

/-- C9 witness: the amended statement instantiated at amount −5. -/
theorem c9_negative_amount_schema_error_witness :
    createJobPayment 5 10 20 (-5) "credit_card" none =
      Except.error "Amount must be positive" :=
  c9_negative_amount_schema_error 5 10 20 "credit_card" (-5) (by norm_num)

theorem findJob_setApplications (db : DB) (X : List Application) (j : Nat) :
    findJob { db with applications := X } j = findJob db j := rfl

/-- C10 counterexample: on the fixture (job counter at 1, no prior
application) a successful applyForJob leaves the counter at 2 — it
grew by 1, not by the claimed 2 (which would give 3).  The
ApplicationSchema post("save") hook guards its increment with
`if (this.isNew)`, but mongoose ^8.15.0 resets isNew to false before
post("save") middleware runs, so only the controller's explicit $inc
executes. -/
theorem c10_counterexample :
    (applyForJob exDB0 5 20 1 0 none none).map
      (fun d => (findJob d 5).map Job.applicationsCount) =
      Except.ok (some 2) ∧
    some (2 : Int) ≠ some (3 : Int) := by
  exact ⟨rfl, by decide⟩

/-- C10 (amended): every successful applyForJob call increments the
parent Job's applicationsCount by exactly 1 — only the controller's
explicit update runs; the post-save hook's isNew-guarded increment
never fires because mongoose clears isNew before post("save")
middleware. -/
theorem c10_single_increment
    (db : DB) (jobId uid newId now : Nat) (c r : Option String)
    (user : User) (job : Job)
    (hu : findUser db uid = some user) (hrole : user.role = "specialist")
    (hj : findJob db jobId = some job) (hact : job.status = "active")
    (hnodup : db.applications.any
      (fun a => a.job == jobId && a.applicant == uid) = false)
    (hdl : (match job.applicationDeadline with
            | some d => decide (now > d)
            | none => false) = false) :
    applyCountSpec db jobId uid newId now c r job := by
  unfold applyCountSpec
  have hjid : job.id = jobId := findJob_id db jobId job hj
  simp only [applyForJob, hu, hj, hrole, hact, hnodup, hdl, ne_eq,
    not_true_eq_false, if_false, Bool.false_eq_true, ite_false]
  simp only [findJob_incApplicationsCount, findJob_addNotification,
    findJob_setApplications, hj, Option.map_some']
  simp [hjid]
  exact hact

/-- C10 witness: the single-increment statement instantiated on the
fixture with no prior application. -/
theorem c10_single_increment_witness :
    applyCountSpec exDB0 5 20 1 0 none none exJob :=
  c10_single_increment exDB0 5 20 1 0 none none exApplicant exJob
    rfl rfl rfl rfl rfl rfl
